import Mathlib

/-!
Verification of the Airsoft-HUD helper classes `Button` (src/Button.h) and
`StateToggleTimer` (src/StateToggleTimer.h).

Machine integers: on the target microcontroller `unsigned long` (the type of
`millis()` and of all stored timestamps/durations) is a 32-bit unsigned
integer.  We embed it as `Nat` together with an explicit modulus `W = 2^32`:
every value stored into an `unsigned long` field is reduced `% W`, and the
wraparound subtraction `now - past` of C unsigned arithmetic is the function
`wsub` below.

The interrupt handler `Button::onInterrupt` reads `millis()` and
`digitalRead(m_pin)`; in the embedding these two environment inputs are
passed as arguments `now` and `currentState`.  `LOW` is embedded as `false`,
`HIGH` as `true`.
-/

/-- The value `2^32`, the modulus of `unsigned long` arithmetic on the target. -/
def W : Nat := 4294967296

/-- C unsigned 32-bit subtraction `a - b` (wraparound-safe), on arbitrary
`Nat` inputs: the result is `(a - b) mod 2^32`. -/
def wsub (a b : Nat) : Nat := (a % W + (W - b % W)) % W

/-! ## Button (src/Button.h) -/

/-- Mutable state of `class Button`.  `m_pin` is the bound input pin (never
changed after construction). -/
structure Button where
  m_pin : Int
  lastStateChangeTime : Nat
  lastState : Bool
  m_bIsPressed : Bool
  m_bWasPressed : Bool
  m_bWasLongPressed : Bool
  m_bReset : Bool
deriving Repr, DecidableEq

namespace Button

/-- The constant `static const unsigned long debounceDelay = 50;`. -/
def debounceDelay : Nat := 50

/-- The constant `static const unsigned long longPressDelay = 1000;`. -/
def longPressDelay : Nat := 1000

/-- The constant `static const bool bIsPressed = LOW;` — the active (pressed) input
level.  `LOW` is `false`. -/
def bIsPressed : Bool := false

/-- The constructor `Button(int pin)`, with `t` the value `millis()` returns
at construction time.  `m_bReset` is not assigned in the C++ constructor;
the object is created at namespace scope (via the `DefineButton` macro), so
static zero-initialization leaves it `false`. -/
def construct (pin : Int) (t : Nat) : Button :=
  { m_pin := pin
    m_bIsPressed := false
    m_bWasPressed := false
    m_bWasLongPressed := false
    lastState := !bIsPressed
    lastStateChangeTime := t % W
    m_bReset := false }

/-- The method `void Reset()`. -/
def Reset (b : Button) : Button :=
  { b with m_bReset := true, m_bIsPressed := false, m_bWasPressed := false }

/-- The method `bool IsPressed()`. -/
def IsPressed (b : Button) : Bool := b.m_bIsPressed

/-- The method `bool WasPressed()`: returns the latch and clears it (consume-on-read).
The returned pair is (result, post-state). -/
def WasPressed (b : Button) : Bool × Button :=
  if b.m_bWasPressed then (true, { b with m_bWasPressed := false })
  else (false, b)

/-- The method `bool WasLongPressed()`: returns the latch and clears it
(consume-on-read).  The returned pair is (result, post-state). -/
def WasLongPressed (b : Button) : Bool × Button :=
  if b.m_bWasLongPressed then (true, { b with m_bWasLongPressed := false })
  else (false, b)

/-- The handler `void onInterrupt()`.  Here `now` is the value read from `millis()` and
`currentState` the level read from `digitalRead(m_pin)`. -/
def onInterrupt (b : Button) (now : Nat) (currentState : Bool) : Button :=
  let timeSinceLastStateChange := wsub now b.lastStateChangeTime
  if timeSinceLastStateChange > debounceDelay then
    if currentState != b.lastState then
      let b1 : Button :=
        { b with
          lastStateChangeTime := now % W
          lastState := currentState
          m_bIsPressed := (currentState == bIsPressed) }
      let b2 : Button :=
        if currentState != bIsPressed then
          { b1 with
            m_bWasPressed := true
            m_bWasLongPressed := decide (timeSinceLastStateChange > longPressDelay) }
        else
          { b1 with m_bWasLongPressed := false }
      if b2.m_bReset then
        { b2 with
          m_bReset := false
          m_bIsPressed := false
          m_bWasPressed := false
          m_bWasLongPressed := false }
      else b2
    else b
  else b

end Button

/-! ## StateToggleTimer (src/StateToggleTimer.h) -/

/-- Mutable state of `class StateToggleTimer`. -/
structure StateToggleTimer where
  m_bIsOn : Bool
  m_bPreviousState : Bool
  m_bHasStarted : Bool
  m_duration : Nat
  m_timer : Nat
deriving Repr, DecidableEq

namespace StateToggleTimer

/-- The constructor `StateToggleTimer(const unsigned long duration)`, with
`t` the value `millis()` returns at construction time. -/
def construct (duration : Nat) (t : Nat) : StateToggleTimer :=
  { m_bIsOn := false
    m_bPreviousState := false
    m_bHasStarted := false
    m_duration := duration % W
    m_timer := t % W }

/-- The method `bool IsOn()`. -/
def IsOn (s : StateToggleTimer) : Bool := s.m_bIsOn

/-- The method `bool HasStarted()`. -/
def HasStarted (s : StateToggleTimer) : Bool := s.m_bHasStarted

/-- The method `void SetDuration(const unsigned long duration)`. -/
def SetDuration (s : StateToggleTimer) (duration : Nat) : StateToggleTimer :=
  { s with m_duration := duration % W }

/-- The method `void Start()`, with `now` the value read from `millis()`. -/
def Start (s : StateToggleTimer) (now : Nat) : StateToggleTimer :=
  { s with m_bIsOn := true, m_bHasStarted := true, m_timer := now % W }

/-- The method `void Stop()`. -/
def Stop (s : StateToggleTimer) : StateToggleTimer :=
  { s with m_bIsOn := true, m_bHasStarted := false }

/-- The method `void Update(const unsigned long now)`. -/
def Update (s : StateToggleTimer) (now : Nat) : StateToggleTimer :=
  if s.m_bHasStarted then
    if wsub now s.m_timer > s.m_duration then
      { s with m_timer := now % W, m_bIsOn := !s.m_bIsOn }
    else s
  else
    { s with m_bIsOn := true }

/-- The method `bool HasStateChanged()`: the returned pair is (result, post-state). -/
def HasStateChanged (s : StateToggleTimer) : Bool × StateToggleTimer :=
  (!(s.m_bPreviousState == s.m_bIsOn), { s with m_bPreviousState := s.m_bIsOn })

end StateToggleTimer

/-! ## Arithmetic helper lemmas -/

/-- Reducing the subtrahend modulo `W` does not change a wraparound
subtraction. -/
theorem wsub_mod_right (a b : Nat) : wsub a (b % W) = wsub a b := by
  simp [wsub, Nat.mod_mod_of_dvd]

/-- Advancing the clock by `k` from (the reduction of) time `a` yields an
elapsed value of `k % W`. -/
theorem wsub_add_self (a k : Nat) : wsub (a + k) (a % W) = k % W := by
  simp only [wsub, W]
  omega

/-- The method `Update` never touches the previously-recorded state used by
`HasStateChanged`. -/
theorem StateToggleTimer.update_prev (s : StateToggleTimer) (now : Nat) :
    (s.Update now).m_bPreviousState = s.m_bPreviousState := by
  unfold StateToggleTimer.Update
  split
  · split <;> rfl
  · rfl

/-- Characterization of `Button.onInterrupt` on an accepted edge (elapsed
time beyond the debounce interval, and a level actually different from the
last accepted one): the three branches of the body, as one case split on
the pending-reset flag and the release/press direction. -/
theorem Button.onInterrupt_accepted (b : Button) (now : Nat) (c : Bool)
    (hacc : wsub now b.lastStateChangeTime > Button.debounceDelay)
    (hchg : c ≠ b.lastState) :
    b.onInterrupt now c =
      if b.m_bReset then
        { b with lastStateChangeTime := now % W, lastState := c,
                 m_bIsPressed := false, m_bWasPressed := false,
                 m_bWasLongPressed := false, m_bReset := false }
      else if c != Button.bIsPressed then
        { b with lastStateChangeTime := now % W, lastState := c,
                 m_bIsPressed := (c == Button.bIsPressed), m_bWasPressed := true,
                 m_bWasLongPressed :=
                   decide (wsub now b.lastStateChangeTime > Button.longPressDelay) }
      else
        { b with lastStateChangeTime := now % W, lastState := c,
                 m_bIsPressed := (c == Button.bIsPressed),
                 m_bWasLongPressed := false } := by
  have hchg' : (c != b.lastState) = true := by simpa [bne_iff_ne] using hchg
  simp only [Button.onInterrupt]
  rw [if_pos hacc, if_pos hchg']
  by_cases hr : b.m_bReset <;> by_cases hc : (c != Button.bIsPressed) = true <;>
    simp [hr, hc]

/-! ## Theorems for the claims -/

/-- Claim C8: `HasStateChanged()` returns true iff the current state differs
from the previously recorded one, records the current state, and therefore a
second consecutive call (even across an `Update` that does not change the
state) returns false. -/
theorem toggle_change_detector (s : StateToggleTimer) (now : Nat)
    (h : ((s.HasStateChanged).2.Update now).m_bIsOn = (s.HasStateChanged).2.m_bIsOn) :
    ((s.HasStateChanged).1 = true ↔ s.m_bPreviousState ≠ s.m_bIsOn) ∧
    (s.HasStateChanged).2.m_bPreviousState = s.m_bIsOn ∧
    ((s.HasStateChanged).2.HasStateChanged).1 = false ∧
    (((s.HasStateChanged).2.Update now).HasStateChanged).1 = false := by
  refine ⟨by simp [StateToggleTimer.HasStateChanged], rfl,
    by simp [StateToggleTimer.HasStateChanged], ?_⟩
  have hp := StateToggleTimer.update_prev (s.HasStateChanged).2 now
  simp only [StateToggleTimer.HasStateChanged] at h hp ⊢
  simp [hp, h]

/-- Witness for C8: a started timer polled before its duration elapses does
not change state, and the edge detector fires at most once. -/
theorem toggle_change_detector_witness :
    ((((StateToggleTimer.construct 100 0).Start 0).HasStateChanged).2.Update 10).m_bIsOn =
      (((StateToggleTimer.construct 100 0).Start 0).HasStateChanged).2.m_bIsOn ∧
    (((((StateToggleTimer.construct 100 0).Start 0).HasStateChanged).1 = true ↔
        ((StateToggleTimer.construct 100 0).Start 0).m_bPreviousState ≠
          ((StateToggleTimer.construct 100 0).Start 0).m_bIsOn) ∧
      ((((StateToggleTimer.construct 100 0).Start 0).HasStateChanged).2).m_bPreviousState =
        ((StateToggleTimer.construct 100 0).Start 0).m_bIsOn ∧
      (((((StateToggleTimer.construct 100 0).Start 0).HasStateChanged).2).HasStateChanged).1 = false ∧
      ((((((StateToggleTimer.construct 100 0).Start 0).HasStateChanged).2).Update 10).HasStateChanged).1 = false) :=
  ⟨by decide, toggle_change_detector ((StateToggleTimer.construct 100 0).Start 0) 10 (by decide)⟩

/-- Counterexample to C4 as stated: immediately after construction, before
any `Update` or `Start`, the timer has not started but `IsOn()` returns
false (the constructor sets `m_bIsOn = false`), contradicting "IsOn()
returns true" for every not-started timer. -/
theorem toggle_constructed_is_off :
    (StateToggleTimer.construct 100 0).HasStarted = false ∧
    (StateToggleTimer.construct 100 0).IsOn = false := by decide

/-- Claim C4 (amended): immediately after construction `IsOn()` is false,
and every `Update(now)` call while not started forces the state on, so
`IsOn()` returns true from the first `Update` onwards. -/
theorem toggle_not_started_update_forces_on (D t now : Nat) (s : StateToggleTimer)
    (h : s.m_bHasStarted = false) :
    (StateToggleTimer.construct D t).IsOn = false ∧ (s.Update now).IsOn = true := by
  refine ⟨rfl, ?_⟩
  simp [StateToggleTimer.Update, StateToggleTimer.IsOn, h]

/-- Witness for the amended C4 at duration 100, construction time 0 and a
poll at time 7. -/
theorem toggle_not_started_update_forces_on_witness :
    (StateToggleTimer.construct 100 0).m_bHasStarted = false ∧
    ((StateToggleTimer.construct 100 0).IsOn = false ∧
      ((StateToggleTimer.construct 100 0).Update 7).IsOn = true) :=
  ⟨by decide, toggle_not_started_update_forces_on 100 0 7 (StateToggleTimer.construct 100 0) (by decide)⟩

/-- Claim C1: if `onInterrupt` fires when the elapsed time since the last
accepted transition (32-bit wraparound difference) does not exceed the
debounce interval of 50 ms, the call leaves the entire `Button` state
unchanged: accepted level, last-accepted-change timestamp, is-pressed,
was-pressed and was-long-pressed. -/
theorem button_debounce_ignores_event (b : Button) (now : Nat) (currentState : Bool)
    (h : wsub now b.lastStateChangeTime ≤ Button.debounceDelay) :
    b.onInterrupt now currentState = b := by
  have h' : ¬ (wsub now b.lastStateChangeTime > Button.debounceDelay) := by omega
  simp [Button.onInterrupt, h']

/-- Witness for C1: a freshly constructed button receives an edge 30 ms
later; 30 ≤ 50, so the state is untouched. -/
theorem button_debounce_ignores_event_witness :
    wsub 30 ((Button.construct 5 0).lastStateChangeTime) ≤ Button.debounceDelay ∧
    (Button.construct 5 0).onInterrupt 30 false = Button.construct 5 0 :=
  ⟨by decide, button_debounce_ignores_event (Button.construct 5 0) 30 false (by decide)⟩

/-- Counterexample to C5 as stated: with duration `D = 2^32 - 1` (a valid
`unsigned long`) and `t0 = 0`, the 32-bit elapsed value at time
`t0 + D + 1 = 2^32` is `0`, which does not exceed `D`, so
`Update(t0 + D + 1)` does not flip the state: `IsOn()` is still true,
although the claim requires it to have flipped from on to off. -/
theorem toggle_periodicity_counterexample :
    (((StateToggleTimer.construct 4294967295 0).Start 0).Update
        (0 + 4294967295 + 1)).IsOn = true ∧
    (((StateToggleTimer.construct 4294967295 0).Start 0).Update
        (0 + 4294967295 + 1)).m_timer =
      ((StateToggleTimer.construct 4294967295 0).Start 0).m_timer := by decide

/-- Claim C5 (amended): for a duration `D` with `D + 1 < 2^32`, after
`Start()` at time `t0` the state is on, `Update(t0 + D + 1)` flips it to
off and resets the reference timestamp to that call's `now`, and
`Update(t0 + 2D + 2)` flips it back to on; in general, while started,
`Update(now)` flips the state and resets the reference timestamp exactly
when the 32-bit difference `now - m_timer` strictly exceeds the duration,
and otherwise changes nothing. -/
theorem toggle_periodicity (s : StateToggleTimer) (t0 : Nat)
    (hD : s.m_duration + 1 < W) :
    ((s.Start t0).IsOn = true ∧
     ((s.Start t0).Update (t0 + s.m_duration + 1)).IsOn = false ∧
     ((s.Start t0).Update (t0 + s.m_duration + 1)).m_timer =
       (t0 + s.m_duration + 1) % W ∧
     (((s.Start t0).Update (t0 + s.m_duration + 1)).Update
         (t0 + 2 * s.m_duration + 2)).IsOn = true) ∧
    ∀ (s' : StateToggleTimer) (now : Nat), s'.m_bHasStarted = true →
      s'.Update now =
        if wsub now s'.m_timer > s'.m_duration then
          { s' with m_timer := now % W, m_bIsOn := !s'.m_bIsOn }
        else s' := by
  have hDW : s.m_duration + 1 < 4294967296 := by simpa [W] using hD
  have e1 : wsub (t0 + s.m_duration + 1) (t0 % W) = s.m_duration + 1 := by
    simp only [wsub, W]
    omega
  have e2 : wsub (t0 + 2 * s.m_duration + 2) ((t0 + s.m_duration + 1) % W) =
      s.m_duration + 1 := by
    simp only [wsub, W]
    omega
  have h1 : (s.Start t0).Update (t0 + s.m_duration + 1) =
      { s with m_bIsOn := false, m_bHasStarted := true,
               m_timer := (t0 + s.m_duration + 1) % W } := by
    simp [StateToggleTimer.Update, StateToggleTimer.Start, e1]
  have h2 : ((s.Start t0).Update (t0 + s.m_duration + 1)).Update
      (t0 + 2 * s.m_duration + 2) =
      { s with m_bIsOn := true, m_bHasStarted := true,
               m_timer := (t0 + 2 * s.m_duration + 2) % W } := by
    rw [h1]
    simp [StateToggleTimer.Update, e2]
  refine ⟨⟨rfl, ?_, ?_, ?_⟩, ?_⟩
  · rw [h1]; rfl
  · rw [h1]
  · rw [h2]; rfl
  · intro s' now hs
    simp [StateToggleTimer.Update, hs]

/-- Witness for the amended C5 at duration 100, start time 7. -/
theorem toggle_periodicity_witness :
    (StateToggleTimer.construct 100 0).m_duration + 1 < W ∧
    ((((StateToggleTimer.construct 100 0).Start 7).IsOn = true ∧
      (((StateToggleTimer.construct 100 0).Start 7).Update
          (7 + (StateToggleTimer.construct 100 0).m_duration + 1)).IsOn = false ∧
      (((StateToggleTimer.construct 100 0).Start 7).Update
          (7 + (StateToggleTimer.construct 100 0).m_duration + 1)).m_timer =
        (7 + (StateToggleTimer.construct 100 0).m_duration + 1) % W ∧
      ((((StateToggleTimer.construct 100 0).Start 7).Update
           (7 + (StateToggleTimer.construct 100 0).m_duration + 1)).Update
          (7 + 2 * (StateToggleTimer.construct 100 0).m_duration + 2)).IsOn = true) ∧
     ∀ (s' : StateToggleTimer) (now : Nat), s'.m_bHasStarted = true →
       s'.Update now =
         if wsub now s'.m_timer > s'.m_duration then
           { s' with m_timer := now % W, m_bIsOn := !s'.m_bIsOn }
         else s') :=
  ⟨by decide, toggle_periodicity (StateToggleTimer.construct 100 0) 7 (by decide)⟩

/-- Claim C7: `Stop()` clears the started flag and also forces the on/off
state to true, so immediately afterwards `HasStarted()` is false and
`IsOn()` is true. -/
theorem toggle_stop_forces_on (s : StateToggleTimer) :
    (s.Stop).HasStarted = false ∧ (s.Stop).IsOn = true := by
  simp [StateToggleTimer.Stop, StateToggleTimer.HasStarted, StateToggleTimer.IsOn]

/-- Claim C9: `SetDuration(d)` changes only the toggle duration (stored as
`d` reduced to `unsigned long`); the on/off state, the previously recorded
state, the started flag and the reference timestamp are unchanged. -/
theorem toggle_set_duration_frame (s : StateToggleTimer) (d : Nat) :
    (s.SetDuration d).m_duration = d % W ∧
    (s.SetDuration d).m_bIsOn = s.m_bIsOn ∧
    (s.SetDuration d).m_bPreviousState = s.m_bPreviousState ∧
    (s.SetDuration d).m_bHasStarted = s.m_bHasStarted ∧
    (s.SetDuration d).m_timer = s.m_timer := by
  simp [StateToggleTimer.SetDuration]

/-- Accepting a press edge (level `false` = `LOW`) leaves the button with
accepted level `false`, no pending reset (a pending reset is consumed by the
edge), and reference timestamp `t1 % W` — whether or not a reset was
pending. -/
theorem Button.press_state (b : Button) (t1 : Nat)
    (h0 : b.lastState = true)
    (h1 : wsub t1 b.lastStateChangeTime > Button.debounceDelay) :
    (b.onInterrupt t1 false).lastState = false ∧
    (b.onInterrupt t1 false).m_bReset = false ∧
    (b.onInterrupt t1 false).lastStateChangeTime = t1 % W := by
  rw [Button.onInterrupt_accepted b t1 false h1 (by rw [h0]; decide)]
  by_cases hr : b.m_bReset <;> simp [hr, Button.bIsPressed]

/-- Counterexample to C2 as stated: press at 100 ms, `Reset()`, then an
accepted release at 2000 ms (elapsed 1900 ms, beyond both the debounce
interval and the long-press threshold).  The claim requires was-pressed =
true and was-long-pressed = true, but the pending reset forces both flags
false. -/
theorem button_release_under_reset_counterexample :
    ((((Button.construct 5 0).onInterrupt 100 false).Reset).onInterrupt 2000 true).m_bWasPressed
      = false ∧
    ((((Button.construct 5 0).onInterrupt 100 false).Reset).onInterrupt 2000 true).m_bWasLongPressed
      = false ∧
    wsub 2000 ((((Button.construct 5 0).onInterrupt 100 false).Reset).lastStateChangeTime) = 1900 ∧
    (((Button.construct 5 0).onInterrupt 100 false).Reset).lastState = false := by decide

/-- Claim C2 (amended): on an accepted release (new level different from the
last accepted one and from the active level), provided no reset is pending,
the was-pressed flag is set true and the was-long-pressed flag is set true
iff the elapsed time since the last accepted transition strictly exceeds
the long-press threshold of 1000 ms. -/
theorem button_release_sets_flags (b : Button) (now : Nat) (currentState : Bool)
    (hres : b.m_bReset = false)
    (hacc : wsub now b.lastStateChangeTime > Button.debounceDelay)
    (hchg : currentState ≠ b.lastState)
    (hrel : currentState ≠ Button.bIsPressed) :
    (b.onInterrupt now currentState).m_bWasPressed = true ∧
    ((b.onInterrupt now currentState).m_bWasLongPressed = true ↔
      wsub now b.lastStateChangeTime > Button.longPressDelay) := by
  rw [Button.onInterrupt_accepted b now currentState hacc hchg]
  have hrel' : (currentState != Button.bIsPressed) = true := by
    simpa [bne_iff_ne] using hrel
  simp [hres, hrel']

/-- Witness for the amended C2: press accepted at 100 ms, release accepted
at 2000 ms with no pending reset; elapsed 1900 ms exceeds 1000 ms. -/
theorem button_release_sets_flags_witness :
    ((Button.construct 5 0).onInterrupt 100 false).m_bReset = false ∧
    wsub 2000 (((Button.construct 5 0).onInterrupt 100 false).lastStateChangeTime) >
      Button.debounceDelay ∧
    (true : Bool) ≠ ((Button.construct 5 0).onInterrupt 100 false).lastState ∧
    (true : Bool) ≠ Button.bIsPressed ∧
    ((((Button.construct 5 0).onInterrupt 100 false).onInterrupt 2000 true).m_bWasPressed = true ∧
     ((((Button.construct 5 0).onInterrupt 100 false).onInterrupt 2000 true).m_bWasLongPressed = true ↔
       wsub 2000 (((Button.construct 5 0).onInterrupt 100 false).lastStateChangeTime) >
         Button.longPressDelay)) :=
  ⟨by decide, by decide, by decide, by decide,
   button_release_sets_flags ((Button.construct 5 0).onInterrupt 100 false) 2000 true
     (by decide) (by decide) (by decide) (by decide)⟩

/-- Claim C3: `Reset()` immediately clears the is-pressed and was-pressed
latches and arms the pending-reset flag; any subsequent accepted level
change on a state with a pending reset (whatever the edge's direction or
timing) forces all three flags false and clears the pending-reset flag. -/
theorem button_reset_then_edge_clears (b b' : Button) (now : Nat) (currentState : Bool)
    (hr : b'.m_bReset = true)
    (hacc : wsub now b'.lastStateChangeTime > Button.debounceDelay)
    (hchg : currentState ≠ b'.lastState) :
    (b.Reset.m_bIsPressed = false ∧ b.Reset.m_bWasPressed = false ∧
     b.Reset.m_bReset = true) ∧
    ((b'.onInterrupt now currentState).m_bIsPressed = false ∧
     (b'.onInterrupt now currentState).m_bWasPressed = false ∧
     (b'.onInterrupt now currentState).m_bWasLongPressed = false ∧
     (b'.onInterrupt now currentState).m_bReset = false) := by
  refine ⟨⟨rfl, rfl, rfl⟩, ?_⟩
  rw [Button.onInterrupt_accepted b' now currentState hacc hchg]
  simp [hr]

/-- Witness for C3: press at 100 ms, `Reset()`, accepted release edge at
2000 ms — all flags end false and the pending reset is consumed. -/
theorem button_reset_then_edge_clears_witness :
    ((((Button.construct 5 0).onInterrupt 100 false).Reset).m_bReset = true) ∧
    wsub 2000 ((((Button.construct 5 0).onInterrupt 100 false).Reset).lastStateChangeTime) >
      Button.debounceDelay ∧
    (true : Bool) ≠ (((Button.construct 5 0).onInterrupt 100 false).Reset).lastState ∧
    (((Button.construct 5 0).Reset.m_bIsPressed = false ∧
      (Button.construct 5 0).Reset.m_bWasPressed = false ∧
      (Button.construct 5 0).Reset.m_bReset = true) ∧
     (((((Button.construct 5 0).onInterrupt 100 false).Reset).onInterrupt 2000 true).m_bIsPressed = false ∧
      ((((Button.construct 5 0).onInterrupt 100 false).Reset).onInterrupt 2000 true).m_bWasPressed = false ∧
      ((((Button.construct 5 0).onInterrupt 100 false).Reset).onInterrupt 2000 true).m_bWasLongPressed = false ∧
      ((((Button.construct 5 0).onInterrupt 100 false).Reset).onInterrupt 2000 true).m_bReset = false)) :=
  ⟨by decide, by decide, by decide,
   button_reset_then_edge_clears (Button.construct 5 0)
     (((Button.construct 5 0).onInterrupt 100 false).Reset) 2000 true
     (by decide) (by decide) (by decide)⟩

/-- Claim C6: from any state whose last accepted level is "released", a
press edge accepted at `t1` followed by a release edge accepted at `t2`
(both separated by more than the debounce interval) makes `WasPressed()`
return true exactly once — the first read returns true and clears the
latch, a second read returns false — and `WasLongPressed()` clears its
latch on read in the same way. -/
theorem button_press_release_once (b : Button) (t1 t2 : Nat)
    (h0 : b.lastState = true)
    (h1 : wsub t1 b.lastStateChangeTime > Button.debounceDelay)
    (h2 : wsub t2 t1 > Button.debounceDelay) :
    ((((b.onInterrupt t1 false).onInterrupt t2 true).WasPressed).1 = true) ∧
    (((((b.onInterrupt t1 false).onInterrupt t2 true).WasPressed).2.WasPressed).1 = false) ∧
    (((((b.onInterrupt t1 false).onInterrupt t2 true).WasLongPressed).2.WasLongPressed).1 = false) := by
  obtain ⟨hs1, hr1, ht1⟩ := Button.press_state b t1 h0 h1
  have hacc2 : wsub t2 (b.onInterrupt t1 false).lastStateChangeTime > Button.debounceDelay := by
    rw [ht1, wsub_mod_right]
    exact h2
  have hchg2 : (true : Bool) ≠ (b.onInterrupt t1 false).lastState := by
    rw [hs1]
    decide
  rw [Button.onInterrupt_accepted _ t2 true hacc2 hchg2]
  by_cases hl : wsub t2 (b.onInterrupt t1 false).lastStateChangeTime > Button.longPressDelay <;>
    simp [hr1, hl, Button.bIsPressed, Button.WasPressed, Button.WasLongPressed]

/-- Witness for C6: a fresh button, press at 100 ms, release at 300 ms. -/
theorem button_press_release_once_witness :
    (Button.construct 5 0).lastState = true ∧
    wsub 100 ((Button.construct 5 0).lastStateChangeTime) > Button.debounceDelay ∧
    wsub 300 100 > Button.debounceDelay ∧
    (((((Button.construct 5 0).onInterrupt 100 false).onInterrupt 300 true).WasPressed).1 = true ∧
     ((((((Button.construct 5 0).onInterrupt 100 false).onInterrupt 300 true).WasPressed).2.WasPressed).1 = false) ∧
     ((((((Button.construct 5 0).onInterrupt 100 false).onInterrupt 300 true).WasLongPressed).2.WasLongPressed).1 = false)) :=
  ⟨by decide, by decide, by decide,
   button_press_release_once (Button.construct 5 0) 100 300 (by decide) (by decide) (by decide)⟩

/-- Claim C10: `Reset()` leaves the was-long-pressed latch unchanged, so if
the latch was set before `Reset()`, a `WasLongPressed()` read after
`Reset()` (before the next accepted level change) still returns true. -/
theorem button_reset_keeps_long_latch (b : Button) (h : b.m_bWasLongPressed = true) :
    (b.Reset).m_bWasLongPressed = b.m_bWasLongPressed ∧
    ((b.Reset).WasLongPressed).1 = true := by
  constructor
  · simp [Button.Reset]
  · simp [Button.Reset, Button.WasLongPressed, h]

/-- Witness for C10: a button whose long-press latch is set keeps it across
`Reset()` and the following read returns true. -/
theorem button_reset_keeps_long_latch_witness :
    { Button.construct 5 0 with m_bWasLongPressed := true }.m_bWasLongPressed = true ∧
    (({ Button.construct 5 0 with m_bWasLongPressed := true } : Button).Reset.m_bWasLongPressed =
      { Button.construct 5 0 with m_bWasLongPressed := true }.m_bWasLongPressed ∧
     (({ Button.construct 5 0 with m_bWasLongPressed := true } : Button).Reset.WasLongPressed).1 = true) :=
  ⟨by decide, button_reset_keeps_long_latch _ (by decide)⟩
